import Mathlib

/-!
Shallow embedding of the PersonaMeet bot (persona_meet_bot.py) for
verification of its specification.  The in-page JavaScript (INIT_SCRIPT)
is modelled as pure functions over explicit state records; the Python
orchestrator is modelled as trace-producing functions parameterised by
an environment (browser responses, failure points).  Raised Python
exceptions of class Exception are modelled by explicit failure outcomes
in the environment.
-/

namespace PersonaMeet

/-! ## INIT_SCRIPT section 2: the in-page recording system.

State variables of the script closure: recCtx, recDest, mediaRecorder,
recordedChunks, totalRecBytes, isRecording, connectedTrackIds.
A chunk is its byte content (List Nat); a blob is the concatenation.
-/

/-- State of a MediaRecorder object. -/
inductive MRState where
  | inactive
  | recording
deriving DecidableEq, Repr

/-- The recording AudioContext together with its MediaStreamDestination.
The field destAudioTracks is the number of audio tracks of the
destination stream (a freshly created MediaStreamDestination stream
carries exactly one audio track, per the Web Audio API). -/
structure RecCtx where
  destAudioTracks : Nat
deriving DecidableEq, Repr

/-- The mutable state of INIT_SCRIPT section 2 (recording system).
connectedSources records every MediaStreamSource node that was created
and connected to the destination, tagged by the id of its track. -/
structure RecState where
  recCtx : Option RecCtx
  mediaRecorder : Option MRState
  recordedChunks : List (List Nat)
  totalRecBytes : Nat
  isRecording : Bool
  connectedTrackIds : List String
  connectedSources : List String
deriving DecidableEq, Repr

/-- The initial state of the script closure (the let-bindings at the top
of INIT_SCRIPT section 2). -/
def RecState.init : RecState :=
  { recCtx := none
    mediaRecorder := none
    recordedChunks := []
    totalRecBytes := 0
    isRecording := false
    connectedTrackIds := []
    connectedSources := [] }

/-- ensureRecordingContext: lazily creates the recording AudioContext and
its MediaStreamDestination.  A fresh destination stream has exactly one
audio track. -/
def ensureRecordingContext (s : RecState) : RecCtx × RecState :=
  match s.recCtx with
  | some c => (c, s)
  | none =>
      let c : RecCtx := ⟨1⟩
      (c, { s with recCtx := some c })

/-- connectTrackToRecorder(track): if the track id is already in
connectedTrackIds, return; otherwise ensure the context, create a
MediaStreamSource for the track, connect it to the destination, and add
the id to the set. -/
def connectTrackToRecorder (s : RecState) (trackId : String) : RecState :=
  if trackId ∈ s.connectedTrackIds then s
  else
    let s1 := (ensureRecordingContext s).2
    { s1 with
        connectedSources := s1.connectedSources ++ [trackId]
        connectedTrackIds := s1.connectedTrackIds ++ [trackId] }

/-- The ended listener attached in the PersonaRTCPeerConnection track
handler: connectedTrackIds.delete(event.track.id). -/
def onTrackEnded (s : RecState) (trackId : String) : RecState :=
  { s with connectedTrackIds := s.connectedTrackIds.erase trackId }

/-- startRecording(): if already recording, return true unchanged.
Otherwise ensure the recording context; if the destination stream has no
audio tracks return false; otherwise create a MediaRecorder on the
stream, reset recordedChunks and totalRecBytes, start the recorder and
set isRecording. -/
def startRecording (s : RecState) : Bool × RecState :=
  if s.isRecording then (true, s)
  else
    let p := ensureRecordingContext s
    if p.1.destAudioTracks = 0 then (false, p.2)
    else
      (true, { p.2 with
                 mediaRecorder := some .recording
                 recordedChunks := []
                 totalRecBytes := 0
                 isRecording := true })

/-- The ondataavailable handler: push the chunk and add its size, but
only when the chunk is non-empty. -/
def ondataavailable (s : RecState) (data : List Nat) : RecState :=
  if 0 < data.length then
    { s with
        recordedChunks := s.recordedChunks ++ [data]
        totalRecBytes := s.totalRecBytes + data.length }
  else s

/-- stopRecording(): resolves null when no MediaRecorder exists or
isRecording is false; also resolves null when the recorder object is
already inactive.  Otherwise stop fires onstop: isRecording is cleared,
and the result is null when zero chunks or zero bytes were buffered,
else the concatenated blob (returned to Python as a data URL). -/
def stopRecording (s : RecState) : Option (List Nat) × RecState :=
  match s.mediaRecorder with
  | none => (none, s)
  | some mr =>
      if s.isRecording = false then (none, s)
      else if mr = .inactive then (none, s)
      else
        let s1 := { s with isRecording := false, mediaRecorder := some .inactive }
        if s.recordedChunks.length = 0 ∨ s.totalRecBytes = 0 then (none, s1)
        else
          let blob := s.recordedChunks.flatten
          if blob.length = 0 then (none, s1)
          else (some blob, s1)

/-- Well-formedness invariant of the recording state, maintained by the
script: totalRecBytes is the total size of the buffered chunks (the
ondataavailable handler adds chunk sizes as it pushes chunks), and
whenever isRecording holds a MediaRecorder exists and is not inactive
(startRecording sets both together, onstop clears both together). -/
def RecWF (s : RecState) : Prop :=
  s.totalRecBytes = (s.recordedChunks.map List.length).sum ∧
  (s.isRecording = true → s.mediaRecorder = some .recording)

instance (s : RecState) : Decidable (RecWF s) := by
  unfold RecWF; infer_instance

/-! ## INIT_SCRIPT section 1: the virtual audio system. -/

/-- Kind of a media track. -/
inductive TrackKind where
  | audio
  | video
deriving DecidableEq, Repr

/-- Origin of a media track: produced by a real device, or by the
in-page audio graph. -/
inductive TrackSource where
  | real
  | synthetic
deriving DecidableEq, Repr

/-- A media track. -/
structure MTrack where
  kind : TrackKind
  source : TrackSource
deriving DecidableEq, Repr

/-- stream.getAudioTracks(). -/
def getAudioTracks (s : List MTrack) : List MTrack :=
  s.filter (fun t => t.kind == TrackKind.audio)

/-- stream.getVideoTracks(). -/
def getVideoTracks (s : List MTrack) : List MTrack :=
  s.filter (fun t => t.kind == TrackKind.video)

/-- The stream of a freshly created MediaStreamDestination of the
in-page audio graph: exactly one audio track, produced in-process. -/
def destinationStream : List MTrack :=
  [{ kind := TrackKind.audio, source := TrackSource.synthetic }]

/-- The cached virtual stream (the variable virtualStream). -/
structure VirtStream where
  tracks : List MTrack
  active : Bool
deriving DecidableEq, Repr

/-- The mutable state of INIT_SCRIPT section 1 that getUserMedia and
getVirtualAudioStream touch. -/
structure VirtState where
  audioContextCreated : Bool
  audioDestinationCreated : Bool
  gainNodeCreated : Bool
  virtualStream : Option VirtStream
deriving DecidableEq, Repr

/-- Initial state of the virtual audio system. -/
def VirtState.init : VirtState :=
  { audioContextCreated := false
    audioDestinationCreated := false
    gainNodeCreated := false
    virtualStream := none }

/-- getVirtualAudioStream(): reuse the cached stream if still active;
otherwise lazily create the AudioContext, destination and gain node
(whichever are missing) and cache the destination stream. -/
def getVirtualAudioStream (s : VirtState) : List MTrack × VirtState :=
  match s.virtualStream with
  | some vs =>
      if vs.active then (vs.tracks, s)
      else
        (destinationStream,
          { s with
              audioContextCreated := true
              audioDestinationCreated := true
              gainNodeCreated := true
              virtualStream := some { tracks := destinationStream, active := true } })
  | none =>
      (destinationStream,
        { s with
            audioContextCreated := true
            audioDestinationCreated := true
            gainNodeCreated := true
            virtualStream := some { tracks := destinationStream, active := true } })

/-- A getUserMedia constraints object; the fields record truthiness of
constraints.audio and constraints.video. -/
structure GUMConstraints where
  audio : Bool
  video : Bool
deriving DecidableEq, Repr

/-- Environment of one intercepted getUserMedia call: the behaviour of
the saved originalGetUserMedia.  videoResult is its result for the
video-only request issued by the override (none models the call
throwing); passthrough is its result for the non-audio constraints that
are forwarded unchanged. -/
structure GUMEnv where
  videoResult : Option (List MTrack)
  passthrough : List MTrack
deriving Repr

/-- The navigator.mediaDevices.getUserMedia override: for any request
with truthy audio, answer with the virtual audio stream; when video is
also requested, combine the virtual audio tracks with the real video
tracks, falling back to the virtual stream when acquiring video throws;
non-audio requests are passed through to the original. -/
def getUserMedia (env : GUMEnv) (s : VirtState) (c : GUMConstraints) :
    List MTrack × VirtState :=
  if c.audio then
    let p := getVirtualAudioStream s
    if c.video then
      match env.videoResult with
      | some vidStream => (getAudioTracks p.1 ++ getVideoTracks vidStream, p.2)
      | none => p
    else p
  else (env.passthrough, s)

/-- Well-formedness of the virtual audio state: whatever stream is
cached in virtualStream was produced by the in-page destination, so all
its tracks are synthetic audio. -/
def VirtWF (s : VirtState) : Prop :=
  match s.virtualStream with
  | none => True
  | some vs => ∀ t ∈ vs.tracks, t.kind = TrackKind.audio ∧ t.source = TrackSource.synthetic

/-- A device record as returned by enumerateDevices. -/
structure MDevice where
  deviceId : String
  kind : String
  label : String
  groupId : String
deriving DecidableEq, Repr

/-- The injected synthetic audio-input device. -/
def virtualMicDevice : MDevice :=
  { deviceId := "virtual-persona-mic"
    kind := "audioinput"
    label := "PersonaMeet Virtual Microphone"
    groupId := "virtual-persona-group" }

/-- The navigator.mediaDevices.enumerateDevices override: take the real
device list (empty when the original call throws) and append the
synthetic device exactly when no real audio-input device is present. -/
def enumerateDevices (realDevices : Option (List MDevice)) : List MDevice :=
  let devices := realDevices.getD []
  let hasAudioInput := devices.any (fun d => d.kind == "audioinput")
  if hasAudioInput then devices else devices ++ [virtualMicDevice]

/-! ## Toggle control (mic / camera): JS_FIND_TOGGLE result and the
retry loops of PersonaMeetBot. -/

/-- Inferred state of a toggle control (the state field returned by
JS_FIND_TOGGLE). -/
inductive TState where
  | on
  | off
  | unknown
deriving DecidableEq, Repr

/-- Result of one JS_FIND_TOGGLE page evaluation that found a control:
inferred state plus the click coordinates. -/
structure ToggleInfo where
  state : TState
  x : Int
  y : Int
deriving DecidableEq, Repr

/-- Page interactions issued by the toggle loops. -/
inductive UIAction where
  | queryToggle
  | click (x y : Int)
deriving DecidableEq, Repr

/-- The body of PersonaMeetBot._disable_with_retry.  The environment maps
the index of a page query to the JS_FIND_TOGGLE result of that query
(none when the control was not found); idx is the index of the next
query; the fuel is the number of remaining attempts.  Returns the Python
return value together with the page interactions performed. -/
def disable_loop (env : Nat → Option ToggleInfo) (idx : Nat) :
    Nat → Bool × List UIAction
  | 0 => (false, [])
  | n + 1 =>
      match env idx with
      | none =>
          let p := disable_loop env (idx + 1) n
          (p.1, UIAction.queryToggle :: p.2)
      | some info =>
          if info.state = TState.off then (true, [UIAction.queryToggle])
          else if info.state = TState.on then
            (true, [UIAction.queryToggle, UIAction.click info.x info.y])
          else
            let p := disable_loop env (idx + 1) n
            (p.1, UIAction.queryToggle :: p.2)

/-- PersonaMeetBot._disable_with_retry(button_type, max_attempts). -/
def disable_with_retry (env : Nat → Option ToggleInfo) (maxAttempts : Nat) :
    Bool × List UIAction :=
  disable_loop env 0 maxAttempts

/-- The body of PersonaMeetBot._enable_toggle: same search loop, but an
ON control is immediate success, and after clicking an OFF control the
state is re-queried and success is declared only when the new state is
ON; otherwise the whole cycle is retried. -/
def enable_loop (env : Nat → Option ToggleInfo) (idx : Nat) :
    Nat → Bool × List UIAction
  | 0 => (false, [])
  | n + 1 =>
      match env idx with
      | none =>
          let p := enable_loop env (idx + 1) n
          (p.1, UIAction.queryToggle :: p.2)
      | some info =>
          if info.state = TState.on then (true, [UIAction.queryToggle])
          else if info.state = TState.off then
            if (env (idx + 1)).map ToggleInfo.state = some TState.on then
              (true, [UIAction.queryToggle, UIAction.click info.x info.y,
                      UIAction.queryToggle])
            else
              let p := enable_loop env (idx + 2) n
              (p.1, UIAction.queryToggle :: UIAction.click info.x info.y ::
                    UIAction.queryToggle :: p.2)
          else
            let p := enable_loop env (idx + 1) n
            (p.1, UIAction.queryToggle :: p.2)

/-- PersonaMeetBot._enable_toggle(button_type): five attempts. -/
def enable_toggle (env : Nat → Option ToggleInfo) : Bool × List UIAction :=
  enable_loop env 0 5

/-! ## PersonaMeetBot._schedule_bot_speech. -/

/-- The observable steps of the speech task. -/
inductive SpeechEv where
  | wait10
  | resumeGraph
  | enableMicCall
  | settle2
  | injectAudio
  | playClipCall
  | wait1
  | disableMicCall
deriving DecidableEq, Repr

/-- Environment of the speech task: result of _enable_toggle on the
microphone, and of playSong. -/
structure SpeechEnv where
  micEnabled : Bool
  playResult : Bool
deriving DecidableEq, Repr

/-- PersonaMeetBot._schedule_bot_speech: skip when no audio data URL was
prepared; otherwise wait 10 seconds, and if bot_active has gone false by
then return without enabling the mic or playing; otherwise resume the
audio graph, enable the mic (a failed enable raises, which is caught and
logged), settle, inject the data URL, play the clip, wait, and disable
the mic again. -/
def schedule_bot_speech (hasAudioDataUrl activeAfterWait : Bool)
    (env : SpeechEnv) : List SpeechEv :=
  if hasAudioDataUrl = false then []
  else
    SpeechEv.wait10 ::
      (if activeAfterWait = false then []
       else
         SpeechEv.resumeGraph :: SpeechEv.enableMicCall ::
           (if env.micEnabled = false then []
            else
              [SpeechEv.settle2, SpeechEv.injectAudio, SpeechEv.playClipCall,
               SpeechEv.wait1, SpeechEv.disableMicCall]))

/-! ## PersonaMeetBot.start, URL validation, and
PersonaMeetBot._stop_and_save_recording. -/

/-- Result of urllib.parse.urlparse as far as validation consults it. -/
structure UrlParts where
  hostname : Option String
  path : String
deriving DecidableEq, Repr

/-- PersonaMeetBot._normalize_url. -/
def normalize_url (url : String) : String :=
  let u := url.trim
  if u.startsWith "meet.google.com/" then "https://" ++ u else u

/-- PersonaMeetBot._is_valid_meet_url; parse models urlparse, with none
for the exceptional case, in which the textual fallback applies. -/
def is_valid_meet_url (parse : String → Option UrlParts) (url : String) : Bool :=
  match parse url with
  | some p =>
      decide (p.hostname = some "meet.google.com") && decide (1 < p.path.length)
  | none =>
      url.startsWith "meet.google.com/" &&
        decide ("meet.google.com/".length < url.length)

/-- The flags of the bot object that the orchestration reads. -/
structure BotState where
  bot_active : Bool
  recording_active : Bool
deriving DecidableEq, Repr

/-- Page and filesystem interactions of _stop_and_save_recording. -/
inductive SaveAction where
  | evalStopRecording
  | writeFile
deriving DecidableEq, Repr

/-- Environment of one _stop_and_save_recording call: outcome of the
page evaluate of stopRecording.  none models the evaluate raising (page
gone); some none is a null resolution; some (some bytes) is a data URL
carrying the decoded bytes. -/
structure SaveEnv where
  stopResult : Option (Option (List Nat))
deriving DecidableEq, Repr

/-- PersonaMeetBot._stop_and_save_recording: return immediately when no
recording is active; otherwise evaluate stopRecording in the page (any
exception is caught and logged), write the decoded bytes when a data URL
came back, and clear recording_active in all cases. -/
def stop_and_save_recording (env : SaveEnv) (s : BotState) :
    BotState × List SaveAction :=
  if s.recording_active = false then (s, [])
  else
    let actions :=
      match env.stopResult with
      | none => [SaveAction.evalStopRecording]
      | some none => [SaveAction.evalStopRecording]
      | some (some _) => [SaveAction.evalStopRecording, SaveAction.writeFile]
    ({ s with recording_active := false }, actions)

/-- The observable steps of PersonaMeetBot.start. -/
inductive BotEvent where
  | logInvalidUrl
  | launchBrowser
  | setupPage
  | navigate
  | waitPrejoin
  | fillName
  | disableMicPre
  | disableCamPre
  | clickJoin
  | disableMicIn
  | disableCamIn
  | startRec
  | runTasks
  | stopSaveAttempt
  | logBotError
  | cleanup
deriving DecidableEq, Repr

/-- The steps of the try block of PersonaMeetBot.start that precede the
success-path _stop_and_save_recording call, in program order. -/
def tryPhases : List BotEvent :=
  [BotEvent.launchBrowser, BotEvent.setupPage, BotEvent.navigate,
   BotEvent.waitPrejoin, BotEvent.fillName, BotEvent.disableMicPre,
   BotEvent.disableCamPre, BotEvent.clickJoin, BotEvent.disableMicIn,
   BotEvent.disableCamIn, BotEvent.startRec, BotEvent.runTasks]

/-- PersonaMeetBot.start as a trace.  The meet_url was normalised in the
constructor, and start returns after a log line when validation fails.
failAt gives the index of the first step of the try block that raises an
Exception (indices 0 to 11 are the phases of tryPhases, index 12 the
success-path _stop_and_save_recording); none when nothing raises.  The
except branch logs, then attempts _stop_and_save_recording again inside
its own try/except; the finally branch always runs _cleanup. -/
def startTrace (parse : String → Option UrlParts) (url : String)
    (failAt : Option Nat) : List BotEvent :=
  if is_valid_meet_url parse (normalize_url url) = false then
    [BotEvent.logInvalidUrl]
  else
    match failAt with
    | none => tryPhases ++ [BotEvent.stopSaveAttempt, BotEvent.cleanup]
    | some i =>
        if i < tryPhases.length then
          tryPhases.take i ++
            [BotEvent.logBotError, BotEvent.stopSaveAttempt, BotEvent.cleanup]
        else if i = tryPhases.length then
          tryPhases ++
            [BotEvent.stopSaveAttempt, BotEvent.logBotError,
             BotEvent.stopSaveAttempt, BotEvent.cleanup]
        else
          tryPhases ++ [BotEvent.stopSaveAttempt, BotEvent.cleanup]

/-! ## Concrete inputs used by the witness theorems. -/

/-- A recording state mid-recording with one buffered two-byte chunk. -/
def recStateWit : RecState :=
  { recCtx := some ⟨1⟩
    mediaRecorder := some MRState.recording
    recordedChunks := [[7, 9]]
    totalRecBytes := 2
    isRecording := true
    connectedTrackIds := []
    connectedSources := [] }

/-- A recording state with one connected remote track. -/
def recStateTrack : RecState :=
  { recCtx := some ⟨1⟩
    mediaRecorder := none
    recordedChunks := []
    totalRecBytes := 0
    isRecording := false
    connectedTrackIds := ["track-a"]
    connectedSources := ["track-a"] }

/-- A toggle environment: query 0 answers OFF, query 1 answers ON,
query 2 answers OFF, query 3 finds nothing. -/
def toggleEnvWit : Nat → Option ToggleInfo
  | 0 => some { state := TState.off, x := 10, y := 20 }
  | 1 => some { state := TState.on, x := 30, y := 40 }
  | 2 => some { state := TState.off, x := 50, y := 60 }
  | _ => none

/-- A getUserMedia environment whose original call yields one real
video track. -/
def gumEnvWit : GUMEnv :=
  { videoResult := some [{ kind := TrackKind.video, source := TrackSource.real }]
    passthrough := [] }

/-- A real device list with one camera and no microphone. -/
def realDevicesWit : Option (List MDevice) :=
  some [{ deviceId := "cam1", kind := "videoinput", label := "Camera", groupId := "g1" }]

/-- A urlparse oracle for a fixed non-Meet URL. -/
def parseOther : String → Option UrlParts :=
  fun _ => some { hostname := some "example.com", path := "/abc" }

/-- A urlparse oracle for a fixed valid Meet URL. -/
def parseMeet : String → Option UrlParts :=
  fun _ => some { hostname := some "meet.google.com", path := "/abc-defg-hij" }

/-! ## Invariant lemmas for the recording state. -/

/-- The initial state is well-formed. -/
theorem recWF_init : RecWF RecState.init := by
  constructor <;> simp [RecState.init]

/-- startRecording preserves well-formedness. -/
theorem recWF_startRecording (s : RecState) (h : RecWF s) :
    RecWF (startRecording s).2 := by
  rcases h with ⟨h1, h2⟩
  unfold startRecording ensureRecordingContext
  cases hrec : s.isRecording with
  | true => simpa [hrec] using ⟨h1, h2⟩
  | false =>
      cases hctx : s.recCtx with
      | none =>
          simp only [hrec, hctx, Bool.false_eq_true, if_false]
          exact ⟨rfl, fun _ => rfl⟩
      | some c =>
          by_cases hd : c.destAudioTracks = 0
          · simpa [hrec, hctx, hd] using ⟨h1, h2⟩
          · simp only [hrec, hctx, hd, Bool.false_eq_true, if_false]
            exact ⟨rfl, fun _ => rfl⟩

/-- ondataavailable preserves well-formedness. -/
theorem recWF_ondataavailable (s : RecState) (d : List Nat) (h : RecWF s) :
    RecWF (ondataavailable s d) := by
  rcases h with ⟨h1, h2⟩
  unfold ondataavailable
  split
  · exact ⟨by simp [h1], h2⟩
  · exact ⟨h1, h2⟩

/-- stopRecording preserves well-formedness. -/
theorem recWF_stopRecording (s : RecState) (h : RecWF s) :
    RecWF (stopRecording s).2 := by
  rcases h with ⟨h1, h2⟩
  unfold stopRecording
  split
  · exact ⟨h1, h2⟩
  · split
    · exact ⟨h1, h2⟩
    · split
      · exact ⟨h1, h2⟩
      · split
        · exact ⟨h1, fun hx => by simp at hx⟩
        · dsimp only
          split
          · exact ⟨h1, fun hx => by simp at hx⟩
          · exact ⟨h1, fun hx => by simp at hx⟩

/-- ensureRecordingContext does not touch the track bookkeeping. -/
theorem ensure_fields (s : RecState) :
    (ensureRecordingContext s).2.connectedTrackIds = s.connectedTrackIds ∧
    (ensureRecordingContext s).2.connectedSources = s.connectedSources := by
  unfold ensureRecordingContext
  cases h : s.recCtx <;> exact ⟨rfl, rfl⟩

/-- After connectTrackToRecorder the track id is in the set. -/
theorem connectTrack_mem (s : RecState) (id : String) :
    id ∈ (connectTrackToRecorder s id).connectedTrackIds := by
  unfold connectTrackToRecorder
  by_cases h : id ∈ s.connectedTrackIds
  · simp [h]
  · simp [h, (ensure_fields s).1]

/-- connectTrackToRecorder preserves distinctness of the track set. -/
theorem connectTrack_nodup (s : RecState) (id : String)
    (h : s.connectedTrackIds.Nodup) :
    (connectTrackToRecorder s id).connectedTrackIds.Nodup := by
  unfold connectTrackToRecorder
  by_cases hm : id ∈ s.connectedTrackIds
  · simpa [hm]
  · simp only [hm, if_false]
    rw [(ensure_fields s).1]
    exact List.nodup_append.mpr
      ⟨h, List.nodup_singleton id, by
        intro a ha hb
        simp at hb
        exact hm (hb ▸ ha)⟩

/-! ## Claim theorems. -/

/-- Claim C2: the in-page stopRecording returns null whenever
startRecording was never called (no MediaRecorder exists or isRecording
is false) — in particular calling it when not recording resolves to null
without raising — and whenever zero chunks or zero total bytes were
buffered at stop time; otherwise it returns a non-empty encoded blob. -/
theorem claim_C2_stopRecording_null_or_blob (s : RecState) (hwf : RecWF s) :
    ((s.mediaRecorder = none ∨ s.isRecording = false) →
      (stopRecording s).1 = none) ∧
    ((s.recordedChunks.length = 0 ∨ s.totalRecBytes = 0) →
      (stopRecording s).1 = none) ∧
    (s.mediaRecorder ≠ none → s.isRecording = true →
      s.recordedChunks.length ≠ 0 → s.totalRecBytes ≠ 0 →
      ∃ blob, (stopRecording s).1 = some blob ∧ blob ≠ []) := by
  obtain ⟨h1, h2⟩ := hwf
  refine ⟨?_, ?_, ?_⟩
  · rintro (hmr | hrec)
    · unfold stopRecording
      split
      · rfl
      · next mr heq => rw [hmr] at heq; cases heq
    · unfold stopRecording
      split
      · rfl
      · split
        · rfl
        · next hf => exact absurd hrec hf
  · intro hc
    unfold stopRecording
    split
    · rfl
    · split
      · rfl
      · split
        · rfl
        · rfl
  · intro hm hrec hchunks hbytes
    have hmr : s.mediaRecorder = some MRState.recording := h2 hrec
    unfold stopRecording
    split
    · next heq => rw [hmr] at heq; cases heq
    · next mr heq =>
        have hmrr : mr = MRState.recording := by
          rw [hmr] at heq
          exact (Option.some.inj heq).symm
        subst hmrr
        split
        · next hf => rw [hrec] at hf; cases hf
        · split
          · next hi => cases hi
          · split
            · next hc =>
                rcases hc with hc | hc
                · exact absurd hc hchunks
                · exact absurd hc hbytes
            · dsimp only
              split
              · next hb =>
                  exfalso
                  rw [List.length_flatten] at hb
                  exact hbytes (h1.trans hb)
              · next hb =>
                  exact ⟨s.recordedChunks.flatten, rfl,
                    fun hnil => hb (by rw [hnil]; rfl)⟩

/-- Witness for claim C2 at a concrete mid-recording state. -/
theorem claim_C2_witness :
    RecWF recStateWit ∧
    ((recStateWit.mediaRecorder = none ∨ recStateWit.isRecording = false) →
      (stopRecording recStateWit).1 = none) ∧
    ((recStateWit.recordedChunks.length = 0 ∨ recStateWit.totalRecBytes = 0) →
      (stopRecording recStateWit).1 = none) ∧
    (recStateWit.mediaRecorder ≠ none → recStateWit.isRecording = true →
      recStateWit.recordedChunks.length ≠ 0 → recStateWit.totalRecBytes ≠ 0 →
      ∃ blob, (stopRecording recStateWit).1 = some blob ∧ blob ≠ []) :=
  ⟨by decide, claim_C2_stopRecording_null_or_blob recStateWit (by decide)⟩

/-- Claim C3: the in-page startRecording is a no-op returning true when a
recording is already active (buffers and recorder state unchanged); when
not recording it returns false exactly when the destination capture
stream has zero audio tracks, and otherwise resets the chunk buffer and
byte total to empty and returns true. -/
theorem claim_C3_startRecording (s : RecState) :
    (startRecording { s with isRecording := true } =
      (true, { s with isRecording := true })) ∧
    (((startRecording { s with isRecording := false }).1 = false ↔
        (ensureRecordingContext { s with isRecording := false }).1.destAudioTracks = 0) ∧
      ((ensureRecordingContext { s with isRecording := false }).1.destAudioTracks ≠ 0 →
        (startRecording { s with isRecording := false }).1 = true ∧
        (startRecording { s with isRecording := false }).2.recordedChunks = [] ∧
        (startRecording { s with isRecording := false }).2.totalRecBytes = 0 ∧
        (startRecording { s with isRecording := false }).2.isRecording = true)) := by
  refine ⟨by unfold startRecording; simp, ?_, ?_⟩
  · unfold startRecording
    by_cases hd : (ensureRecordingContext { s with isRecording := false }).1.destAudioTracks = 0 <;>
      simp [hd]
  · intro hd
    unfold startRecording
    simp [hd]

/-- Witness for claim C3 at the initial recording state. -/
theorem claim_C3_witness :
    (startRecording { RecState.init with isRecording := true } =
      (true, { RecState.init with isRecording := true })) ∧
    (((startRecording { RecState.init with isRecording := false }).1 = false ↔
        (ensureRecordingContext
          { RecState.init with isRecording := false }).1.destAudioTracks = 0) ∧
      ((ensureRecordingContext
          { RecState.init with isRecording := false }).1.destAudioTracks ≠ 0 →
        (startRecording { RecState.init with isRecording := false }).1 = true ∧
        (startRecording { RecState.init with isRecording := false }).2.recordedChunks = [] ∧
        (startRecording { RecState.init with isRecording := false }).2.totalRecBytes = 0 ∧
        (startRecording { RecState.init with isRecording := false }).2.isRecording = true)) :=
  claim_C3_startRecording RecState.init

/-- Claim C6: connecting a remote track into the recording mixer is
idempotent — a second call with the same id performs no connection and
leaves the set unchanged (one connected source, not two) — and the ended
handler removes exactly that id from the set. -/
theorem claim_C6_connectTrack_idempotent (s : RecState) (id : String)
    (hnodup : s.connectedTrackIds.Nodup) :
    (id ∈ s.connectedTrackIds → connectTrackToRecorder s id = s) ∧
    connectTrackToRecorder (connectTrackToRecorder s id) id =
      connectTrackToRecorder s id ∧
    (connectTrackToRecorder (connectTrackToRecorder s id) id).connectedSources.count id =
      (connectTrackToRecorder s id).connectedSources.count id ∧
    (id ∉ s.connectedTrackIds →
      (connectTrackToRecorder s id).connectedSources.count id =
        s.connectedSources.count id + 1) ∧
    id ∉ (onTrackEnded (connectTrackToRecorder s id) id).connectedTrackIds ∧
    (∀ j, j ≠ id →
      (j ∈ (onTrackEnded s id).connectedTrackIds ↔ j ∈ s.connectedTrackIds)) := by
  have ha : ∀ t : RecState, id ∈ t.connectedTrackIds →
      connectTrackToRecorder t id = t := by
    intro t h
    unfold connectTrackToRecorder
    simp [h]
  have hsecond : connectTrackToRecorder (connectTrackToRecorder s id) id =
      connectTrackToRecorder s id :=
    ha _ (connectTrack_mem s id)
  refine ⟨ha s, hsecond, by rw [hsecond], ?_, ?_, ?_⟩
  · intro h
    unfold connectTrackToRecorder
    simp only [h, if_false]
    rw [(ensure_fields s).2]
    simp
  · exact (connectTrack_nodup s id hnodup).not_mem_erase
  · intro j hj
    exact List.mem_erase_of_ne hj

/-- Witness for claim C6 at a concrete state with one connected track. -/
theorem claim_C6_witness :
    recStateTrack.connectedTrackIds.Nodup ∧
    (("track-a" : String) ∈ recStateTrack.connectedTrackIds →
      connectTrackToRecorder recStateTrack "track-a" = recStateTrack) ∧
    connectTrackToRecorder (connectTrackToRecorder recStateTrack "track-a") "track-a" =
      connectTrackToRecorder recStateTrack "track-a" ∧
    (connectTrackToRecorder (connectTrackToRecorder recStateTrack "track-a")
        "track-a").connectedSources.count "track-a" =
      (connectTrackToRecorder recStateTrack "track-a").connectedSources.count "track-a" ∧
    (("track-a" : String) ∉ recStateTrack.connectedTrackIds →
      (connectTrackToRecorder recStateTrack "track-a").connectedSources.count "track-a" =
        recStateTrack.connectedSources.count "track-a" + 1) ∧
    ("track-a" : String) ∉
      (onTrackEnded (connectTrackToRecorder recStateTrack "track-a")
        "track-a").connectedTrackIds ∧
    (∀ j, j ≠ "track-a" →
      (j ∈ (onTrackEnded recStateTrack "track-a").connectedTrackIds ↔
        j ∈ recStateTrack.connectedTrackIds)) :=
  ⟨by decide, claim_C6_connectTrack_idempotent recStateTrack "track-a" (by decide)⟩

/-- Membership in getAudioTracks. -/
theorem mem_getAudioTracks {t : MTrack} {l : List MTrack} :
    t ∈ getAudioTracks l ↔ t ∈ l ∧ t.kind = TrackKind.audio := by
  simp [getAudioTracks]

/-- Membership in getVideoTracks. -/
theorem mem_getVideoTracks {t : MTrack} {l : List MTrack} :
    t ∈ getVideoTracks l ↔ t ∈ l ∧ t.kind = TrackKind.video := by
  simp [getVideoTracks]

/-- Every track of the stream returned by getVirtualAudioStream is a
synthetic audio track. -/
theorem getVirtualAudioStream_synthetic (s : VirtState) (hwf : VirtWF s) :
    ∀ t ∈ (getVirtualAudioStream s).1,
      t.kind = TrackKind.audio ∧ t.source = TrackSource.synthetic := by
  have hdest : ∀ t ∈ destinationStream,
      t.kind = TrackKind.audio ∧ t.source = TrackSource.synthetic := by
    intro t ht
    simp only [destinationStream, List.mem_singleton] at ht
    subst ht
    exact ⟨rfl, rfl⟩
  unfold getVirtualAudioStream
  cases hvs : s.virtualStream with
  | none => exact hdest
  | some vs =>
      by_cases hact : vs.active = true
      · simp only [hact, if_true]
        have hwf2 := hwf
        unfold VirtWF at hwf2
        rw [hvs] at hwf2
        exact hwf2
      · simp only [hact, if_false]
        exact hdest

/-- Claim C4: for every constraints object whose audio field is truthy,
the overridden getUserMedia returns a stream whose audio tracks come
only from the synthetic virtual-audio destination, never from a real
audio device; when video is also requested it combines real video tracks
with the synthetic audio tracks, and falls back to the audio-only
synthetic stream when acquiring video fails. -/
theorem claim_C4_getUserMedia (env : GUMEnv) (s : VirtState) (cv : Bool)
    (hwf : VirtWF s) :
    (∀ t ∈ getAudioTracks (getUserMedia env s ⟨true, cv⟩).1,
        t.source = TrackSource.synthetic) ∧
    (∀ vid, cv = true → env.videoResult = some vid →
      (getUserMedia env s ⟨true, cv⟩).1 =
        getAudioTracks (getVirtualAudioStream s).1 ++ getVideoTracks vid) ∧
    (cv = true → env.videoResult = none →
      (getUserMedia env s ⟨true, cv⟩).1 = (getVirtualAudioStream s).1) := by
  have hv := getVirtualAudioStream_synthetic s hwf
  refine ⟨?_, ?_, ?_⟩
  · intro t ht
    rw [mem_getAudioTracks] at ht
    obtain ⟨htm, htk⟩ := ht
    unfold getUserMedia at htm
    cases cv with
    | false => exact (hv t htm).2
    | true =>
        cases hres : env.videoResult with
        | none =>
            rw [hres] at htm
            exact (hv t htm).2
        | some vid =>
            rw [hres] at htm
            rcases List.mem_append.mp htm with htm2 | htm2
            · exact (hv t (mem_getAudioTracks.mp htm2).1).2
            · have hvidk := (mem_getVideoTracks.mp htm2).2
              rw [hvidk] at htk
              cases htk
  · intro vid hcv hres
    subst hcv
    unfold getUserMedia
    rw [hres]
    exact rfl
  · intro hcv hres
    subst hcv
    unfold getUserMedia
    rw [hres]
    exact rfl

/-- Witness for claim C4 at the initial virtual-audio state and an
environment with one real video track. -/
theorem claim_C4_witness :
    VirtWF VirtState.init ∧
    ((∀ t ∈ getAudioTracks (getUserMedia gumEnvWit VirtState.init ⟨true, true⟩).1,
        t.source = TrackSource.synthetic) ∧
      (∀ vid, true = true → gumEnvWit.videoResult = some vid →
        (getUserMedia gumEnvWit VirtState.init ⟨true, true⟩).1 =
          getAudioTracks (getVirtualAudioStream VirtState.init).1 ++
            getVideoTracks vid) ∧
      (true = true → gumEnvWit.videoResult = none →
        (getUserMedia gumEnvWit VirtState.init ⟨true, true⟩).1 =
          (getVirtualAudioStream VirtState.init).1)) :=
  ⟨trivial, claim_C4_getUserMedia gumEnvWit VirtState.init true trivial⟩

/-- Claim C5: the overridden enumerateDevices returns the synthetic
audio-input device exactly when the real device list (empty when real
enumeration fails) has no audio-input device, and never returns two
synthetic devices. -/
theorem claim_C5_enumerateDevices (realDevices : Option (List MDevice))
    (hreal : virtualMicDevice ∉ realDevices.getD []) :
    (virtualMicDevice ∈ enumerateDevices realDevices ↔
      ∀ d ∈ realDevices.getD [], d.kind ≠ "audioinput") ∧
    (enumerateDevices realDevices).count virtualMicDevice ≤ 1 := by
  unfold enumerateDevices
  dsimp only
  by_cases h : (realDevices.getD []).any (fun d => d.kind == "audioinput") = true
  · rw [if_pos h]
    constructor
    · constructor
      · intro hmem
        exact absurd hmem hreal
      · intro hall
        exfalso
        simp only [List.any_eq_true, beq_iff_eq] at h
        obtain ⟨d, hd, hk⟩ := h
        exact hall d hd hk
    · have h0 : (realDevices.getD []).count virtualMicDevice = 0 :=
        List.count_eq_zero_of_not_mem hreal
      omega
  · rw [if_neg h]
    constructor
    · constructor
      · intro _ d hd hkind
        apply h
        simp only [List.any_eq_true, beq_iff_eq]
        exact ⟨d, hd, hkind⟩
      · intro _
        simp
    · have h0 : (realDevices.getD []).count virtualMicDevice = 0 :=
        List.count_eq_zero_of_not_mem hreal
      rw [List.count_append, h0, List.count_singleton_self]

/-- Witness for claim C5 with one real camera device and no microphone. -/
theorem claim_C5_witness :
    virtualMicDevice ∉ realDevicesWit.getD [] ∧
    ((virtualMicDevice ∈ enumerateDevices realDevicesWit ↔
        ∀ d ∈ realDevicesWit.getD [], d.kind ≠ "audioinput") ∧
      (enumerateDevices realDevicesWit).count virtualMicDevice ≤ 1) :=
  ⟨by decide, claim_C5_enumerateDevices realDevicesWit (by decide)⟩

/-- Claim C7: for every control type and attempt budget, disable returns
success immediately without clicking when the locator reports OFF, and
when it reports ON it issues one click and returns success without
re-querying the state; enable, after clicking an OFF control, re-queries
the state and declares success only when the new state is ON, retrying
the whole cycle (up to its attempt ceiling) on mismatch. -/
theorem claim_C7_toggle_loops (env : Nat → Option ToggleInfo) (n i j k m : Nat)
    (a b c d : ToggleInfo)
    (hi : env i = some a) (ha : a.state = TState.off)
    (hj : env j = some b) (hb : b.state = TState.on)
    (hk : env k = some c) (hc : c.state = TState.off)
    (hk2 : (env (k + 1)).map ToggleInfo.state = some TState.on)
    (hm : env m = some d) (hd : d.state = TState.off)
    (hm2 : (env (m + 1)).map ToggleInfo.state ≠ some TState.on) :
    disable_loop env i (n + 1) = (true, [UIAction.queryToggle]) ∧
    disable_loop env j (n + 1) =
      (true, [UIAction.queryToggle, UIAction.click b.x b.y]) ∧
    enable_loop env k (n + 1) =
      (true, [UIAction.queryToggle, UIAction.click c.x c.y,
              UIAction.queryToggle]) ∧
    enable_loop env m (n + 1) =
      ((enable_loop env (m + 2) n).1,
        UIAction.queryToggle :: UIAction.click d.x d.y ::
          UIAction.queryToggle :: (enable_loop env (m + 2) n).2) := by
  refine ⟨?_, ?_, ?_, ?_⟩
  · simp only [disable_loop]
    rw [hi]
    simp [ha]
  · simp only [disable_loop]
    rw [hj]
    simp [hb]
  · simp only [enable_loop]
    rw [hk]
    simp [hc, hk2]
  · simp only [enable_loop]
    rw [hm]
    simp [hd, hm2]

/-- Witness for claim C7 under the concrete toggle environment. -/
theorem claim_C7_witness :
    toggleEnvWit 0 = some { state := TState.off, x := 10, y := 20 } ∧
    ({ state := TState.off, x := 10, y := 20 } : ToggleInfo).state = TState.off ∧
    toggleEnvWit 1 = some { state := TState.on, x := 30, y := 40 } ∧
    ({ state := TState.on, x := 30, y := 40 } : ToggleInfo).state = TState.on ∧
    (toggleEnvWit 1).map ToggleInfo.state = some TState.on ∧
    toggleEnvWit 2 = some { state := TState.off, x := 50, y := 60 } ∧
    (toggleEnvWit 3).map ToggleInfo.state ≠ some TState.on ∧
    disable_loop toggleEnvWit 0 8 = (true, [UIAction.queryToggle]) ∧
    disable_loop toggleEnvWit 1 8 =
      (true, [UIAction.queryToggle, UIAction.click 30 40]) ∧
    enable_loop toggleEnvWit 0 8 =
      (true, [UIAction.queryToggle, UIAction.click 10 20,
              UIAction.queryToggle]) ∧
    enable_loop toggleEnvWit 2 8 =
      ((enable_loop toggleEnvWit 4 7).1,
        UIAction.queryToggle :: UIAction.click 50 60 ::
          UIAction.queryToggle :: (enable_loop toggleEnvWit 4 7).2) := by
  have h := claim_C7_toggle_loops toggleEnvWit 7 0 1 0 2
    { state := TState.off, x := 10, y := 20 }
    { state := TState.on, x := 30, y := 40 }
    { state := TState.off, x := 10, y := 20 }
    { state := TState.off, x := 50, y := 60 }
    rfl rfl rfl rfl rfl rfl rfl rfl rfl (by decide)
  exact ⟨rfl, rfl, rfl, rfl, rfl, rfl, by decide, h.1, h.2.1, h.2.2.1, h.2.2.2⟩

/-- Claim C8: the speech task waits a fixed 10-second delay after the
ACTIVE phase begins, and if the shared bot_active flag has already
become false at that point it returns without enabling the microphone or
playing the clip. -/
theorem claim_C8_speech_skips (env : SpeechEnv) (hasUrl active : Bool)
    (hu : hasUrl = true) (ha : active = false) :
    schedule_bot_speech hasUrl active env = [SpeechEv.wait10] ∧
    SpeechEv.enableMicCall ∉ schedule_bot_speech hasUrl active env ∧
    SpeechEv.playClipCall ∉ schedule_bot_speech hasUrl active env := by
  subst hu
  subst ha
  have h1 : schedule_bot_speech true false env = [SpeechEv.wait10] := rfl
  exact ⟨h1, by rw [h1]; simp, by rw [h1]; simp⟩

/-- Witness for claim C8 with an arbitrary concrete speech environment. -/
theorem claim_C8_witness :
    (true = true) ∧ (false = false) ∧
    (schedule_bot_speech true false { micEnabled := true, playResult := true } =
        [SpeechEv.wait10] ∧
      SpeechEv.enableMicCall ∉
        schedule_bot_speech true false { micEnabled := true, playResult := true } ∧
      SpeechEv.playClipCall ∉
        schedule_bot_speech true false { micEnabled := true, playResult := true }) :=
  ⟨rfl, rfl,
    claim_C8_speech_skips { micEnabled := true, playResult := true } true false rfl rfl⟩

/-- Claim C10: after every call to _stop_and_save_recording the
recording_active flag is false — including when stopping or saving
raised internally (the environment covers the raising outcomes) — so a
subsequent call returns immediately as a no-op without touching the
page. -/
theorem claim_C10_stop_and_save_clears_flag (env env2 : SaveEnv) (s : BotState) :
    (stop_and_save_recording env s).1.recording_active = false ∧
    stop_and_save_recording env2 (stop_and_save_recording env s).1 =
      ((stop_and_save_recording env s).1, []) := by
  have h1 : (stop_and_save_recording env s).1.recording_active = false := by
    unfold stop_and_save_recording
    by_cases h : s.recording_active = false
    · simp [h]
    · simp [h]
  have hno : ∀ (e : SaveEnv) (t : BotState), t.recording_active = false →
      stop_and_save_recording e t = (t, []) := by
    intro e t ht
    unfold stop_and_save_recording
    rw [if_pos ht]
  exact ⟨h1, hno env2 _ h1⟩

/-- Claim C9: for every meet_url that fails validation (after
normalization the parsed hostname is not meet.google.com or the path has
length at most 1), start logs an error and returns immediately without
launching a browser, navigating, recording, or writing any output
artifact. -/
theorem claim_C9_invalid_url_early_return (parse : String → Option UrlParts)
    (url : String) (failAt : Option Nat) (p : UrlParts)
    (hp : parse (normalize_url url) = some p)
    (hbad : p.hostname ≠ some "meet.google.com" ∨ ¬ 1 < p.path.length) :
    startTrace parse url failAt = [BotEvent.logInvalidUrl] ∧
    BotEvent.launchBrowser ∉ startTrace parse url failAt ∧
    BotEvent.navigate ∉ startTrace parse url failAt ∧
    BotEvent.startRec ∉ startTrace parse url failAt ∧
    BotEvent.stopSaveAttempt ∉ startTrace parse url failAt := by
  have hval : is_valid_meet_url parse (normalize_url url) = false := by
    unfold is_valid_meet_url
    rw [hp]
    rcases hbad with hbad | hbad
    · simp [hbad]
    · simp [hbad]
  have h1 : startTrace parse url failAt = [BotEvent.logInvalidUrl] := by
    unfold startTrace
    rw [hval]
    exact rfl
  refine ⟨h1, ?_, ?_, ?_, ?_⟩ <;> rw [h1] <;> simp

/-- Witness for claim C9 at a non-Meet host. -/
theorem claim_C9_witness :
    parseOther (normalize_url "https://example.com/abc") =
      some { hostname := some "example.com", path := "/abc" } ∧
    (({ hostname := some "example.com", path := "/abc" } : UrlParts).hostname ≠
        some "meet.google.com" ∨
      ¬ 1 < ({ hostname := some "example.com", path := "/abc" } : UrlParts).path.length) ∧
    (startTrace parseOther "https://example.com/abc" none = [BotEvent.logInvalidUrl] ∧
      BotEvent.launchBrowser ∉ startTrace parseOther "https://example.com/abc" none ∧
      BotEvent.navigate ∉ startTrace parseOther "https://example.com/abc" none ∧
      BotEvent.startRec ∉ startTrace parseOther "https://example.com/abc" none ∧
      BotEvent.stopSaveAttempt ∉ startTrace parseOther "https://example.com/abc" none) :=
  ⟨rfl, Or.inl (by decide),
    claim_C9_invalid_url_early_return parseOther "https://example.com/abc" none
      { hostname := some "example.com", path := "/abc" } rfl (Or.inl (by decide))⟩

/-- Claim C1: once the orchestration passes URL validation, whether the
phase sequence completes normally or any phase raises, the finalize step
is attempted before teardown (a stopSaveAttempt occurs before the final
cleanup event), and finalize is a no-op when no recording was ever
started. -/
theorem claim_C1_finalize_before_teardown (parse : String → Option UrlParts)
    (url : String) (failAt : Option Nat) (env : SaveEnv) (s : BotState)
    (hvalid : is_valid_meet_url parse (normalize_url url) = true)
    (hflag : s.recording_active = false) :
    (startTrace parse url failAt).getLast? = some BotEvent.cleanup ∧
    BotEvent.stopSaveAttempt ∈ (startTrace parse url failAt).dropLast ∧
    stop_and_save_recording env s = (s, []) := by
  have hnoop : stop_and_save_recording env s = (s, []) := by
    unfold stop_and_save_recording
    rw [if_pos hflag]
  obtain ⟨pre, hpre, hmem⟩ :
      ∃ pre, startTrace parse url failAt = pre ++ [BotEvent.cleanup] ∧
        BotEvent.stopSaveAttempt ∈ pre := by
    unfold startTrace
    rw [hvalid]
    cases failAt with
    | none =>
        exact ⟨tryPhases ++ [BotEvent.stopSaveAttempt], by simp, by simp⟩
    | some i =>
        by_cases hlt : i < tryPhases.length
        · refine ⟨tryPhases.take i ++
            [BotEvent.logBotError, BotEvent.stopSaveAttempt], ?_, by simp⟩
          simp [hlt]
        · by_cases heq : i = tryPhases.length
          · refine ⟨tryPhases ++
              [BotEvent.stopSaveAttempt, BotEvent.logBotError,
               BotEvent.stopSaveAttempt], ?_, by simp⟩
            simp [hlt, heq]
          · refine ⟨tryPhases ++ [BotEvent.stopSaveAttempt], ?_, by simp⟩
            simp [hlt, heq]
  rw [hpre]
  exact ⟨List.getLast?_concat pre, by rw [List.dropLast_concat]; exact hmem, hnoop⟩

/-- Witness for claim C1: a valid Meet URL, a failure in phase 3 of the
try block, and a bot state with no active recording. -/
theorem claim_C1_witness :
    is_valid_meet_url parseMeet (normalize_url "https://meet.google.com/abc-defg-hij") = true ∧
    ({ bot_active := false, recording_active := false } : BotState).recording_active = false ∧
    ((startTrace parseMeet "https://meet.google.com/abc-defg-hij" (some 3)).getLast? =
        some BotEvent.cleanup ∧
      BotEvent.stopSaveAttempt ∈
        (startTrace parseMeet "https://meet.google.com/abc-defg-hij" (some 3)).dropLast ∧
      stop_and_save_recording { stopResult := none }
          { bot_active := false, recording_active := false } =
        ({ bot_active := false, recording_active := false }, [])) :=
  ⟨rfl, rfl,
    claim_C1_finalize_before_teardown parseMeet "https://meet.google.com/abc-defg-hij"
      (some 3) { stopResult := none }
      { bot_active := false, recording_active := false } rfl rfl⟩

end PersonaMeet
